import Mathlib

/-!
Shallow embedding of the restaurant REST API (Express + Mongoose controllers).

The document store is modelled as a list of restaurant documents; the
controllers in `src/controllers/restaurantController.js` and the grade
controllers in the companion controller file become pure functions from the
store (plus the parsed request pieces) to an HTTP response and the new store.
Mongo/Mongoose behaviours used by the code are modelled explicitly:
`findById` is first-match lookup by `_id`, `save` writes the mutated document
back over the one with the same `_id`, `comments.id(x)` is first-match lookup
in the embedded array, `pull(x)` removes every element with matching `_id`,
and subdocument ids are store-assigned (modelled as a fresh-id argument).
-/

namespace RestaurantApi

/-- Embedded address of a restaurant (`address` in the Mongoose schema);
`coord` is the `[longitude, latitude]` pair, kept as a list of rationals as
the schema keeps a plain array of numbers. -/
structure Address where
  building : String
  street : String
  zipcode : String
  coord : List ℚ
deriving DecidableEq, Repr

/-- Embedded grade subdocument (`grades` entries: `{date, score}` plus the
store-assigned `_id`). -/
structure Grade where
  _id : Nat
  date : String
  score : Int
deriving DecidableEq, Repr

/-- Embedded comment subdocument (`comments` entries: `{date, comment}` plus
the store-assigned `_id`). -/
structure Comment where
  _id : Nat
  date : String
  comment : String
deriving DecidableEq, Repr

/-- A restaurant document as declared by `RestaurantSchema` in
`src/models/Restaurants.js`, with the store-assigned `_id`. -/
structure Restaurant where
  _id : Nat
  name : String
  borough : String
  cuisine : String
  address : Address
  grades : List Grade
  restaurant_id : String
  comments : List Comment
deriving DecidableEq, Repr

/-- The document store: the `restaurants` collection. -/
abbrev Store := List Restaurant

/-- `Restaurant.findById(id)`: first document whose `_id` matches (Mongo `_id`
is unique, so first-match equals the-match on well-formed stores). -/
def findById (store : Store) (id : Nat) : Option Restaurant :=
  store.find? (fun r => r._id == id)

/-- `restaurant.save()` after mutating a fetched document: write the mutated
document back over the stored document with the same `_id`. -/
def saveReplace (store : Store) (r : Restaurant) : Store :=
  store.map (fun x => if x._id == r._id then r else x)

/-- JSON body of a response, one constructor per shape the controllers emit. -/
inductive Body where
  | msg : String → Body
  | restaurantDoc : Restaurant → Body
  | restaurantList : List Restaurant → Body
  | commentList : List Comment → Body
  | commentDoc : Comment → Body
  | gradeList : List Grade → Body
  | gradeDoc : Grade → Body
  | listing : Nat → Int → Int → Int → List Restaurant → Body
deriving DecidableEq, Repr

/-- An HTTP response: status code plus JSON body. -/
structure Response where
  status : Nat
  body : Body
deriving DecidableEq, Repr

/-- JavaScript truthiness of an optional string request field: `undefined`
and the empty string are falsy, every other string is truthy. -/
def truthy : Option String → Bool
  | none => false
  | some s => !s.isEmpty

/-- Leading decimal digits of a character list (how `parseInt` consumes its
input: it stops at the first non-digit). -/
def leadingDigits (cs : List Char) : List Char :=
  cs.takeWhile (fun c => c.isDigit)

/-- Value of a non-empty digit prefix, `none` when there is no digit to
consume (`parseInt` returns `NaN` then). -/
def digitsValue (cs : List Char) : Option Nat :=
  let ds := leadingDigits cs
  if ds.isEmpty then none
  else some (ds.foldl (fun a c => 10 * a + (c.toNat - 48)) 0)

/-- Leading-whitespace trim (`parseInt` ignores leading whitespace; what
follows the consumed number never matters to it, so only the left trim is
observable). -/
def trimLeft (cs : List Char) : List Char :=
  cs.dropWhile (fun c => c.isWhitespace)

/-- JavaScript `parseInt` on a decimal string: skip whitespace, optional
sign, then the longest digit prefix; `none` models `NaN`. -/
def jsParseInt (s : String) : Option Int :=
  match trimLeft s.toList with
  | '-' :: rest => (digitsValue rest).map (fun n => -(n : Int))
  | '+' :: rest => (digitsValue rest).map (fun n => (n : Int))
  | cs => (digitsValue cs).map (fun n => (n : Int))

/-- `parseInt(req.query.x) || d`: the default applies when the query
parameter is absent (`parseInt(undefined)` is `NaN`), non-numeric (`NaN`), or
parses to the falsy value `0`. -/
def parseQueryInt (q : Option String) (d : Int) : Int :=
  match q.bind jsParseInt with
  | none => d
  | some n => if n == 0 then d else n

/-- `Math.ceil(num / den)` for an integer numerator and a positive integer
denominator (the only regime `getAllRestaurants` reaches, since the effective
`limit` defaults to 10; JavaScript would return `Infinity` at `den = 0`).
Lean's `Int` division is Euclidean, which is floor division for a positive
denominator, so the ceiling is `-((-num) / den)`. -/
def mathCeilDiv (num den : Int) : Int :=
  -((-num) / den)

/-- `getAllRestaurants` (GET /restaurants): parses `limit` (default 10),
`page` (default 1) and `sort` (default "-createdAt") from the query string,
computes `skip = (page-1)*limit`, asks the store for the sorted documents
with that skip/limit window, counts all documents, and answers 200 with
`{total, page, pages: ceil(total/limit), limit, data}`. The store's sort is
an external collaborator, passed as `sortFn` applied to the sort spec. -/
def getAllRestaurants (store : Store) (sortFn : String → List Restaurant → List Restaurant)
    (limitQ pageQ sortQ : Option String) : Response :=
  let limit := parseQueryInt limitQ 10
  let page := parseQueryInt pageQ 1
  let sort := sortQ.getD "-createdAt"
  let skip := (page - 1) * limit
  let restaurants := ((sortFn sort store).drop skip.toNat).take limit.toNat
  let total := store.length
  { status := 200
    body := Body.listing total page (mathCeilDiv (Int.ofNat total) limit) limit restaurants }

/-- A whole-document update body (PUT /restaurants/:id): the named fields to
merge onto the document, absent fields left untouched (Mongoose
`findByIdAndUpdate` treats a plain object as `$set` of the given paths). -/
structure RestaurantUpdate where
  name : Option String
  borough : Option String
  cuisine : Option String
  address : Option Address
  grades : Option (List Grade)
  restaurant_id : Option String
  comments : Option (List Comment)
deriving DecidableEq, Repr

/-- Merge an update body onto a document: each provided field overwrites,
each absent field keeps the stored value; `_id` is never touched. -/
def applyUpdate (r : Restaurant) (u : RestaurantUpdate) : Restaurant :=
  { r with
    name := u.name.getD r.name
    borough := u.borough.getD r.borough
    cuisine := u.cuisine.getD r.cuisine
    address := u.address.getD r.address
    grades := u.grades.getD r.grades
    restaurant_id := u.restaurant_id.getD r.restaurant_id
    comments := u.comments.getD r.comments }

/-- `updateRestaurant` (PUT /restaurants/:id): `findByIdAndUpdate` with
`new: true` — 404 `"Restaurante no encontrado"` leaving the store untouched
when the id does not resolve, otherwise 200 with the post-update document,
written back to the store. -/
def updateRestaurant (store : Store) (id : Nat) (u : RestaurantUpdate) :
    Response × Store :=
  match findById store id with
  | none => ({ status := 404, body := Body.msg ("Restaurante no encontrado") }, store)
  | some r =>
    let r2 := applyUpdate r u
    ({ status := 200, body := Body.restaurantDoc r2 }, saveReplace store r2)

/-- `deleteRestaurant` (DELETE /restaurants/:id): `findByIdAndDelete` — 404
`"Restaurante no encontrado"` leaving the store untouched when the id does
not resolve, otherwise 200 with the deleted document's snapshot and the
document removed from the store. -/
def deleteRestaurant (store : Store) (id : Nat) : Response × Store :=
  match findById store id with
  | none => ({ status := 404, body := Body.msg ("Restaurante no encontrado") }, store)
  | some r =>
    ({ status := 200, body := Body.restaurantDoc r },
      store.eraseP (fun x => x._id == id))

/-- `getAllCommentsById` (GET /restaurants/:id/comments): 404 when the parent
is absent, otherwise 200 with the parent's embedded comment sequence. -/
def getAllCommentsById (store : Store) (id : Nat) : Response :=
  match findById store id with
  | none => { status := 404, body := Body.msg ("Restaurante no encontrado") }
  | some r => { status := 200, body := Body.commentList r.comments }

/-- Request body of a comment append/update: `{comment, date}`, each possibly
absent (`undefined`). -/
structure CommentBody where
  comment : Option String
  date : Option String
deriving DecidableEq, Repr

/-- Mutate the first element satisfying `p` by `f`, leaving every other
element in place — the effect of fetching a subdocument with
`array.id(elementId)` and assigning to its fields. -/
def updateFirst (p : α → Bool) (f : α → α) : List α → List α
  | [] => []
  | x :: xs => if p x then f x :: xs else x :: updateFirst p f xs

/-- `addComment` (POST /restaurants/:id/comments): reject with 400 when
`!comment || !date`; 404 when the parent is absent; otherwise push
`{comment, date}` (the store assigns the fresh subdocument id `newId`),
persist the parent, and answer 201 with the full updated comment sequence. -/
def addComment (store : Store) (newId : Nat) (id : Nat) (b : CommentBody) :
    Response × Store :=
  if !truthy b.comment || !truthy b.date then
    ({ status := 400, body := Body.msg ("Datos incompletos para agregar el comentario") },
      store)
  else
    match findById store id with
    | none => ({ status := 404, body := Body.msg ("Restaurante no encontrado") }, store)
    | some r =>
      let c : Comment := { _id := newId, date := b.date.getD "", comment := b.comment.getD "" }
      let r2 := { r with comments := r.comments ++ [c] }
      ({ status := 201, body := Body.commentList r2.comments }, saveReplace store r2)

/-- `updateCommentById` (PUT /restaurants/:id/comments/:commentId): reject
with 400 when `!comment || !date`; 404 `"Restaurante no encontrado"` when the
parent is absent; 404 `"Comentario no encontrado"` when `comments.id(x)`
finds nothing; otherwise overwrite the found comment's `comment` and `date`
in place, persist the parent, answer 200 with the updated comment. -/
def updateCommentById (store : Store) (id commentId : Nat) (b : CommentBody) :
    Response × Store :=
  if !truthy b.comment || !truthy b.date then
    ({ status := 400, body := Body.msg ("Datos incompletos para actualizar el comentario") },
      store)
  else
    match findById store id with
    | none => ({ status := 404, body := Body.msg ("Restaurante no encontrado") }, store)
    | some r =>
      match r.comments.find? (fun c => c._id == commentId) with
      | none => ({ status := 404, body := Body.msg ("Comentario no encontrado") }, store)
      | some c =>
        let c2 := { c with comment := b.comment.getD "", date := b.date.getD "" }
        let r2 := { r with
          comments := updateFirst (fun x => x._id == commentId)
            (fun x => { x with comment := b.comment.getD "", date := b.date.getD "" })
            r.comments }
        ({ status := 200, body := Body.commentDoc c2 }, saveReplace store r2)

/-- `deleteCommentById` (DELETE /restaurants/:id/comments/:commentId): 404
`"Restaurante no encontrado"` when the parent is absent; 404 `"Comentario no
encontrado"` when `comments.id(x)` finds nothing; otherwise `pull(commentId)`
(removes every element with that `_id`), persist, answer 200 with a success
message. -/
def deleteCommentById (store : Store) (id commentId : Nat) : Response × Store :=
  match findById store id with
  | none => ({ status := 404, body := Body.msg ("Restaurante no encontrado") }, store)
  | some r =>
    match r.comments.find? (fun c => c._id == commentId) with
    | none => ({ status := 404, body := Body.msg ("Comentario no encontrado") }, store)
    | some _ =>
      let r2 := { r with comments := r.comments.filter (fun c => !(c._id == commentId)) }
      ({ status := 200, body := Body.msg ("Comentario eliminado con éxito") },
        saveReplace store r2)

/-- `getGradesByRestaurantId` (GET /restaurants/:id/grades): 404 when the
parent is absent, otherwise 200 with the parent's embedded grade sequence. -/
def getGradesByRestaurantId (store : Store) (id : Nat) : Response :=
  match findById store id with
  | none => { status := 404, body := Body.msg ("Restaurante no encontrado") }
  | some r => { status := 200, body := Body.gradeList r.grades }

/-- Request body of a grade append/update: `{score, date}`; `score` is
`none` exactly when the JSON field is `undefined`. -/
structure GradeBody where
  score : Option Int
  date : Option String
deriving DecidableEq, Repr

/-- `updateGradeById` (PUT /restaurants/:id/grades/:gradeId): reject with 400
when `score === undefined || !date` (so a present `score` of 0 passes); 404
`"Restaurante no encontrado"` when the parent is absent; 404 `"Calificación
no encontrada"` when `grades.id(x)` finds nothing; otherwise overwrite the
found grade's `score` and `date` in place, persist the parent, answer 200
with the updated grade. -/
def updateGradeById (store : Store) (id gradeId : Nat) (b : GradeBody) :
    Response × Store :=
  if b.score.isNone || !truthy b.date then
    ({ status := 400, body := Body.msg ("Datos incompletos para actualizar la calificación") },
      store)
  else
    match findById store id with
    | none => ({ status := 404, body := Body.msg ("Restaurante no encontrado") }, store)
    | some r =>
      match r.grades.find? (fun g => g._id == gradeId) with
      | none => ({ status := 404, body := Body.msg ("Calificación no encontrada") }, store)
      | some g =>
        let g2 := { g with score := b.score.getD 0, date := b.date.getD "" }
        let r2 := { r with
          grades := updateFirst (fun x => x._id == gradeId)
            (fun x => { x with score := b.score.getD 0, date := b.date.getD "" })
            r.grades }
        ({ status := 200, body := Body.gradeDoc g2 }, saveReplace store r2)

/-- Modelled from the spec: the `addGrade` controller (POST
/restaurants/:id/grades) is wired in `src/routes/restaurantRoutes.js` but its
implementation is not under `src/`. Per §4.2 of the spec: validate required
fields (`score` defined, `date` non-empty) → 400; load the parent → 404 if
absent; append a grade with a freshly store-assigned id; persist the parent;
return the created element with 201 (grades return the single created
element, unlike comments). -/
def addGrade (store : Store) (newId : Nat) (id : Nat) (b : GradeBody) :
    Response × Store :=
  if b.score.isNone || !truthy b.date then
    ({ status := 400, body := Body.msg ("Datos incompletos para agregar la calificación") },
      store)
  else
    match findById store id with
    | none => ({ status := 404, body := Body.msg ("Restaurante no encontrado") }, store)
    | some r =>
      let g : Grade := { _id := newId, date := b.date.getD "", score := b.score.getD 0 }
      let r2 := { r with grades := r.grades ++ [g] }
      ({ status := 201, body := Body.gradeDoc g }, saveReplace store r2)

/-- An origin coordinate for proximity search: `lng`/`lat` query values. -/
structure Origin where
  lng : ℚ
  lat : ℚ
deriving DecidableEq, Repr

/-- One conjunct of the search filter: a provided, non-empty query value must
match the document's field; an absent or empty value filters nothing. -/
def fieldMatches (q : Option String) (v : String) : Bool :=
  match q with
  | none => true
  | some s => s.isEmpty || v == s

/-- The conjunctive name/cuisine/borough filter of the search endpoint. -/
def matchesFilters (name cuisine borough : Option String) (r : Restaurant) : Bool :=
  fieldMatches name r.name && fieldMatches cuisine r.cuisine
    && fieldMatches borough r.borough

/-- Modelled from the spec: the `searchAndSortRestaurants` controller (GET
/restaurants/search) is wired in `src/routes/restaurantRoutes.js` but its
implementation is not under `src/`. Per §4.1 of the spec: build the
conjunctive filter over the provided non-empty `name`/`cuisine`/`borough`
values; when an `origin` is provided, order the matching documents by
geodesic proximity to it, nearest first (ties store-defined); otherwise keep
the store's order. The geodesic distance computation lives in the store's
geospatial engine, so it is passed in as `dist origin restaurant`, a total
order key monotone in true geodesic distance. Answers 200 with the list. -/
def searchAndSortRestaurants (dist : Origin → Restaurant → ℚ) (store : Store)
    (name cuisine borough : Option String) (origin : Option Origin) : Response :=
  let results := store.filter (matchesFilters name cuisine borough)
  let sorted :=
    match origin with
    | none => results
    | some o => results.mergeSort (fun a b => dist o a ≤ dist o b)
  { status := 200, body := Body.restaurantList sorted }

/-- A fixture address used to instantiate theorems on concrete stores. -/
def sampleAddress : Address :=
  { building := "1", street := "Main", zipcode := "10001", coord := [(-73 : ℚ), (40 : ℚ)] }

/-- A fixture restaurant with a given `_id` and no embedded subdocuments. -/
def sampleRestaurant (i : Nat) : Restaurant :=
  { _id := i, name := "Casa", borough := "Centro", cuisine := "Tacos"
    address := sampleAddress, grades := [], restaurant_id := "R1", comments := [] }

/-- A three-document fixture store. -/
def sampleStore : Store := [sampleRestaurant 0, sampleRestaurant 1, sampleRestaurant 2]

/-- A fixture whole-document update body renaming the restaurant. -/
def sampleUpdate : RestaurantUpdate :=
  { name := some "Nuevo", borough := none, cuisine := none, address := none
    grades := none, restaurant_id := none, comments := none }

/-- A fixture restaurant holding two comments and one grade. -/
def commentedRestaurant : Restaurant :=
  { _id := 0, name := "Casa", borough := "Centro", cuisine := "Tacos"
    address := sampleAddress
    grades := [{ _id := 3, date := "2023-03-03", score := 5 }]
    restaurant_id := "R1"
    comments := [{ _id := 1, date := "2023-01-01", comment := "Bueno" },
      { _id := 2, date := "2023-02-02", comment := "Regular" }] }

/-- A one-document fixture store around `commentedRestaurant`. -/
def commentedStore : Store := [commentedRestaurant]

/-- A fixture search origin at (0, 0). -/
def origin0 : Origin := { lng := 0, lat := 0 }

/-- A fixture restaurant near `origin0`. -/
def nearR : Restaurant :=
  { _id := 10, name := "Cerca", borough := "Centro", cuisine := "Tacos"
    address := { building := "2", street := "Main", zipcode := "10001", coord := [1, 0] }
    grades := [], restaurant_id := "R2", comments := [] }

/-- A fixture restaurant far from `origin0`. -/
def farR : Restaurant :=
  { _id := 11, name := "Lejos", borough := "Centro", cuisine := "Tacos"
    address := { building := "3", street := "Main", zipcode := "10001", coord := [5, 5] }
    grades := [], restaurant_id := "R3", comments := [] }

/-- A concrete distance key for instantiating the search theorem on the
fixtures: the first coordinate, which is monotone in the true distance to
`origin0` for the two fixture restaurants. -/
def coordKey (o : Origin) (r : Restaurant) : ℚ := r.address.coord.headD 0

theorem addComment_400_iff (store : Store) (newId id : Nat) (b : CommentBody) :
    (addComment store newId id b).1.status = 400 ↔
      ¬(truthy b.comment = true ∧ truthy b.date = true) := by
  by_cases hc : truthy b.comment <;> by_cases hd : truthy b.date <;>
    simp [addComment, hc, hd]
  cases hf : findById store id <;> simp [hf]

theorem updateCommentById_400_iff (store : Store) (id cid : Nat) (b : CommentBody) :
    (updateCommentById store id cid b).1.status = 400 ↔
      ¬(truthy b.comment = true ∧ truthy b.date = true) := by
  by_cases hc : truthy b.comment <;> by_cases hd : truthy b.date <;>
    simp [updateCommentById, hc, hd]
  cases hf : findById store id with
  | none => simp [hf]
  | some r => cases hg : r.comments.find? (fun c => c._id == cid) <;> simp [hf, hg]

theorem addGrade_400_iff (store : Store) (newId id : Nat) (b : GradeBody) :
    (addGrade store newId id b).1.status = 400 ↔
      (b.score = none ∨ ¬ truthy b.date = true) := by
  by_cases hs : b.score = none <;> by_cases hd : truthy b.date
  · simp [addGrade, hs, hd]
  · simp [addGrade, hs, hd]
  · obtain ⟨s, hsome⟩ := Option.ne_none_iff_exists'.mp hs
    cases hf : findById store id <;> simp [addGrade, hsome, hd, hf]
  · simp [addGrade, hs, hd]

theorem updateGradeById_400_iff (store : Store) (id gid : Nat) (b : GradeBody) :
    (updateGradeById store id gid b).1.status = 400 ↔
      (b.score = none ∨ ¬ truthy b.date = true) := by
  by_cases hs : b.score = none <;> by_cases hd : truthy b.date
  · simp [updateGradeById, hs, hd]
  · simp [updateGradeById, hs, hd]
  · obtain ⟨s, hsome⟩ := Option.ne_none_iff_exists'.mp hs
    cases hf : findById store id with
    | none => simp [updateGradeById, hsome, hd, hf]
    | some r =>
      cases hg : r.grades.find? (fun g => g._id == gid) <;>
        simp [updateGradeById, hsome, hd, hf, hg]
  · simp [updateGradeById, hs, hd]

theorem mathCeilDiv_eq_ceil (t : ℕ) (l : ℤ) (h : 1 ≤ l) :
    mathCeilDiv (Int.ofNat t) l = ⌈(t : ℚ) / (l : ℚ)⌉ := by
  obtain ⟨d, rfl⟩ : ∃ d : ℕ, l = (d : ℤ) := ⟨l.toNat, (Int.toNat_of_nonneg (by omega)).symm⟩
  have hfl : ⌊((-(t : ℤ) : ℤ) : ℚ) / ((d : ℕ) : ℚ)⌋ = (-(t : ℤ)) / (d : ℤ) :=
    Rat.floor_intCast_div_natCast _ d
  have hneg : ((-(t : ℤ) : ℤ) : ℚ) / ((d : ℕ) : ℚ) = -((t : ℚ) / ((d : ℕ) : ℚ)) := by
    push_cast; ring
  rw [hneg, Int.floor_neg] at hfl
  unfold mathCeilDiv
  have hofn : (Int.ofNat t) = (t : ℤ) := rfl
  have hc : ((((d : ℤ)) : ℚ)) = ((d : ℕ) : ℚ) := by push_cast; ring
  rw [hc, hofn]
  omega

theorem parseQueryInt_default (q : Option String) (d : Int)
    (h : q = none ∨ ∃ s, q = some s ∧ (jsParseInt s = none ∨ jsParseInt s = some 0)) :
    parseQueryInt q d = d := by
  rcases h with rfl | ⟨s, rfl, hs | hs⟩ <;> simp [parseQueryInt, *]

/-- C3: required-field validation of subdocument appends and updates answers
400 exactly when fields are missing — for comments when `comment` or `date`
is not a non-empty value, for grades when `score` is `undefined` or `date` is
empty — and a present `score` of 0 with a non-empty date is never rejected by
grade append or grade update. -/
theorem subdocValidation_400_exact (store : Store) (newId id cid gid : Nat)
    (cb : CommentBody) (gb : GradeBody) (d : String) :
    ((addComment store newId id cb).1.status = 400 ↔
      ¬(truthy cb.comment = true ∧ truthy cb.date = true))
    ∧ ((updateCommentById store id cid cb).1.status = 400 ↔
      ¬(truthy cb.comment = true ∧ truthy cb.date = true))
    ∧ ((addGrade store newId id gb).1.status = 400 ↔
      (gb.score = none ∨ ¬ truthy gb.date = true))
    ∧ ((updateGradeById store id gid gb).1.status = 400 ↔
      (gb.score = none ∨ ¬ truthy gb.date = true))
    ∧ (truthy (some d) = true →
        (addGrade store newId id { score := some 0, date := some d }).1.status ≠ 400
        ∧ (updateGradeById store id gid { score := some 0, date := some d }).1.status ≠ 400) := by
  refine ⟨addComment_400_iff _ _ _ _, updateCommentById_400_iff _ _ _ _,
    addGrade_400_iff _ _ _ _, updateGradeById_400_iff _ _ _ _, fun hd => ⟨?_, ?_⟩⟩
  · simp [addGrade_400_iff, hd]
  · simp [updateGradeById_400_iff, hd]

/-- Witness for C3 at concrete inputs: a grade body with `score = 0` and a
non-empty date is not rejected, while a comment body with an empty `comment`
is. -/
theorem subdocValidation_400_exact_witness :
    (addGrade sampleStore 7 0 { score := some 0, date := some "2024-01-01" }).1.status ≠ 400
    ∧ (addComment sampleStore 7 0 { comment := some "", date := some "2024-01-01" }).1.status
        = 400 := by
  have h := subdocValidation_400_exact sampleStore 7 0 1 2
    { comment := some "", date := some "2024-01-01" }
    { score := some 0, date := some "2024-01-01" } "2024-01-01"
  exact ⟨(h.2.2.2.2 (by decide)).1, h.1.mpr (by decide)⟩

/-- C9: when the `limit` query parameter is absent, non-numeric, or parses to
0, the effective limit is the default 10; likewise `page` falls back to 1; so
for those input shapes the listing's `pages = ceil(total/limit)` computation
divides by 10 and 1 is the reported page. -/
theorem getAllRestaurants_defaults (store : Store)
    (sortFn : String → List Restaurant → List Restaurant)
    (limitQ pageQ sortQ : Option String)
    (hL : limitQ = none ∨ ∃ s, limitQ = some s ∧ (jsParseInt s = none ∨ jsParseInt s = some 0))
    (hP : pageQ = none ∨ ∃ s, pageQ = some s ∧ (jsParseInt s = none ∨ jsParseInt s = some 0)) :
    parseQueryInt limitQ 10 = 10 ∧ parseQueryInt pageQ 1 = 1
    ∧ getAllRestaurants store sortFn limitQ pageQ sortQ =
      { status := 200
        body := Body.listing store.length 1 (mathCeilDiv (Int.ofNat store.length) 10) 10
          ((sortFn (sortQ.getD "-createdAt") store).take 10) }
    ∧ mathCeilDiv (Int.ofNat store.length) 10 = ⌈(store.length : ℚ) / (10 : ℚ)⌉ := by
  have hL10 := parseQueryInt_default limitQ 10 hL
  have hP1 := parseQueryInt_default pageQ 1 hP
  refine ⟨hL10, hP1, ?_, mathCeilDiv_eq_ceil _ 10 (by norm_num)⟩
  simp [getAllRestaurants, hL10, hP1]

/-- Witness for C9: a non-numeric `limit` and a `page` of `"0"` fall back to
10 and 1, and the listing is computed with divisor 10. -/
theorem getAllRestaurants_defaults_witness :
    parseQueryInt (some "abc") 10 = 10 ∧ parseQueryInt (some "0") 1 = 1
    ∧ getAllRestaurants sampleStore (fun _ l => l) (some "abc") (some "0") none =
      { status := 200
        body := Body.listing 3 1 1 10
          [sampleRestaurant 0, sampleRestaurant 1, sampleRestaurant 2] } := by
  have h := getAllRestaurants_defaults sampleStore (fun _ l => l) (some "abc") (some "0") none
    (Or.inr ⟨"abc", rfl, Or.inl (by decide)⟩) (Or.inr ⟨"0", rfl, Or.inr (by decide)⟩)
  refine ⟨h.1, h.2.1, ?_⟩
  rw [h.2.2.1]
  decide

/-- C1: for a valid page ≥ 1 and limit ≥ 1, the paginated listing skips
exactly `(page-1)*limit` documents of the requested sort order, returns at
most `limit` documents, reports `total` as the count of all documents
ignoring pagination, and reports `pages = ceil(total/limit)`. -/
theorem getAllRestaurants_paginated_contract (store : Store)
    (sortFn : String → List Restaurant → List Restaurant)
    (limitQ pageQ sortQ : Option String)
    (hp : 1 ≤ parseQueryInt pageQ 1) (hl : 1 ≤ parseQueryInt limitQ 10) :
    getAllRestaurants store sortFn limitQ pageQ sortQ =
      { status := 200
        body := Body.listing store.length (parseQueryInt pageQ 1)
          (mathCeilDiv (Int.ofNat store.length) (parseQueryInt limitQ 10))
          (parseQueryInt limitQ 10)
          (((sortFn (sortQ.getD "-createdAt") store).drop
              ((parseQueryInt pageQ 1 - 1) * parseQueryInt limitQ 10).toNat).take
            (parseQueryInt limitQ 10).toNat) }
    ∧ (((sortFn (sortQ.getD "-createdAt") store).drop
          ((parseQueryInt pageQ 1 - 1) * parseQueryInt limitQ 10).toNat).take
        (parseQueryInt limitQ 10).toNat).length ≤ (parseQueryInt limitQ 10).toNat
    ∧ mathCeilDiv (Int.ofNat store.length) (parseQueryInt limitQ 10) =
        ⌈(store.length : ℚ) / ((parseQueryInt limitQ 10 : ℤ) : ℚ)⌉ :=
  ⟨rfl, List.length_take_le _ _, mathCeilDiv_eq_ceil _ _ hl⟩

/-- Witness for C1: page 2 with limit 2 over a three-document store skips the
first two documents, returns the one remaining document, and reports
`pages = ceil(3/2) = 2`. -/
theorem getAllRestaurants_paginated_contract_witness :
    1 ≤ parseQueryInt (some "2") 1 ∧ 1 ≤ parseQueryInt (some "2") 10
    ∧ getAllRestaurants sampleStore (fun _ l => l) (some "2") (some "2") none =
      { status := 200, body := Body.listing 3 2 2 2 [sampleRestaurant 2] } := by
  refine ⟨by decide, by decide, ?_⟩
  have h := (getAllRestaurants_paginated_contract sampleStore (fun _ l => l)
    (some "2") (some "2") none (by decide) (by decide)).1
  rw [h]
  decide

/-- C10: a comment append or comment update whose body fails the required
field validation answers 400 and leaves the store untouched, with the very
same response whether or not the restaurant id resolves — validation runs
before the parent lookup. -/
theorem commentValidation_precedes_lookup (store : Store) (newId id cid : Nat)
    (b : CommentBody) (h : ¬(truthy b.comment = true ∧ truthy b.date = true)) :
    addComment store newId id b =
      ({ status := 400, body := Body.msg ("Datos incompletos para agregar el comentario") },
        store)
    ∧ updateCommentById store id cid b =
      ({ status := 400, body := Body.msg ("Datos incompletos para actualizar el comentario") },
        store) := by
  have hb : (!truthy b.comment || !truthy b.date) = true := by
    rcases not_and_or.mp h with h' | h' <;> simp [eq_true_of_ne_false] at h' <;> simp [h']
  exact ⟨by simp [addComment, hb], by simp [updateCommentById, hb]⟩

/-- Witness for C10: an empty `comment` is rejected with 400 both on an id
that resolves (0) and on one that does not (99), leaving the store as is. -/
theorem commentValidation_precedes_lookup_witness :
    addComment sampleStore 7 0 { comment := some "", date := some "2024-01-01" } =
      ({ status := 400, body := Body.msg ("Datos incompletos para agregar el comentario") },
        sampleStore)
    ∧ updateCommentById sampleStore 99 5 { comment := some "", date := some "2024-01-01" } =
      ({ status := 400, body := Body.msg ("Datos incompletos para actualizar el comentario") },
        sampleStore) :=
  ⟨(commentValidation_precedes_lookup sampleStore 7 0 5
      { comment := some "", date := some "2024-01-01" } (by decide)).1,
    (commentValidation_precedes_lookup sampleStore 7 99 5
      { comment := some "", date := some "2024-01-01" } (by decide)).2⟩

/-- C5: whole-document update on an id that does not resolve performs no
modification and answers 404 `"Restaurante no encontrado"`; on an id that
does resolve it answers 200 with the post-update document. -/
theorem updateRestaurant_contract (store : Store) (id : Nat) (u : RestaurantUpdate) :
    (findById store id = none →
      updateRestaurant store id u =
        ({ status := 404, body := Body.msg ("Restaurante no encontrado") }, store))
    ∧ (∀ r, findById store id = some r →
      updateRestaurant store id u =
        ({ status := 200, body := Body.restaurantDoc (applyUpdate r u) },
          saveReplace store (applyUpdate r u))) :=
  ⟨fun h => by simp [updateRestaurant, h], fun r h => by simp [updateRestaurant, h]⟩

/-- Witness for C5: id 99 is absent from the fixture store, so the update
404s and the store is unchanged; id 1 resolves and the rename is applied. -/
theorem updateRestaurant_contract_witness :
    findById sampleStore 99 = none
    ∧ updateRestaurant sampleStore 99 sampleUpdate =
      ({ status := 404, body := Body.msg ("Restaurante no encontrado") }, sampleStore)
    ∧ findById sampleStore 1 = some (sampleRestaurant 1)
    ∧ (updateRestaurant sampleStore 1 sampleUpdate).1.status = 200 := by
  refine ⟨by decide, (updateRestaurant_contract sampleStore 99 sampleUpdate).1 (by decide),
    by decide, ?_⟩
  have h := (updateRestaurant_contract sampleStore 1 sampleUpdate).2
    (sampleRestaurant 1) (by decide)
  rw [h]

theorem findById_eraseP_eq_none (store : Store) (id : Nat)
    (hN : (store.map (fun r => r._id)).Nodup) (r : Restaurant)
    (h : findById store id = some r) :
    findById (store.eraseP (fun x => x._id == id)) id = none := by
  induction store with
  | nil => simp [findById] at h
  | cons a l ih =>
    by_cases ha : a._id = id
    · have herase : (a :: l).eraseP (fun x => x._id == id) = l := by
        simp [List.eraseP_cons, ha]
      rw [herase]
      have hnotin : id ∉ l.map (fun r => r._id) := by
        have := (List.nodup_cons.mp hN).1
        simpa [ha] using this
      rw [findById, List.find?_eq_none]
      intro x hx
      simp only [beq_iff_eq]
      intro hxid
      exact hnotin (List.mem_map.mpr ⟨x, hx, hxid⟩)
    · have herase : (a :: l).eraseP (fun x => x._id == id) =
          a :: l.eraseP (fun x => x._id == id) := by
        simp [List.eraseP_cons, ha]
      have hfind : findById l id = some r := by
        have : (a._id == id) = false := by simp [ha]
        simpa [findById, List.find?, this] using h
      have hN' : (l.map (fun r => r._id)).Nodup := (List.nodup_cons.mp hN).2
      have := ih hN' hfind
      rw [herase, findById, List.find?]
      simp only [show (a._id == id) = false by simp [ha]]
      exact this

/-- C6: deleting an existing restaurant answers 200 with the deleted
document's snapshot; afterwards the id no longer resolves (Mongo `_id`s are
unique), so deleting the same id again answers 404 and changes nothing. -/
theorem deleteRestaurant_twice_notfound (store : Store) (id : Nat) (r : Restaurant)
    (hN : (store.map (fun x => x._id)).Nodup) (h : findById store id = some r) :
    deleteRestaurant store id =
      ({ status := 200, body := Body.restaurantDoc r },
        store.eraseP (fun x => x._id == id))
    ∧ findById (store.eraseP (fun x => x._id == id)) id = none
    ∧ deleteRestaurant (store.eraseP (fun x => x._id == id)) id =
      ({ status := 404, body := Body.msg ("Restaurante no encontrado") },
        store.eraseP (fun x => x._id == id)) := by
  have h2 := findById_eraseP_eq_none store id hN r h
  exact ⟨by simp [deleteRestaurant, h], h2, by simp [deleteRestaurant, h2]⟩

/-- Witness for C6: deleting id 1 from the fixture store returns its snapshot
and the two remaining documents; the second delete of id 1 answers 404. -/
theorem deleteRestaurant_twice_notfound_witness :
    deleteRestaurant sampleStore 1 =
      ({ status := 200, body := Body.restaurantDoc (sampleRestaurant 1) },
        [sampleRestaurant 0, sampleRestaurant 2])
    ∧ deleteRestaurant [sampleRestaurant 0, sampleRestaurant 2] 1 =
      ({ status := 404, body := Body.msg ("Restaurante no encontrado") },
        [sampleRestaurant 0, sampleRestaurant 2]) := by
  have h := deleteRestaurant_twice_notfound sampleStore 1 (sampleRestaurant 1)
    (by decide) (by decide)
  have he : sampleStore.eraseP (fun x => x._id == 1) =
      [sampleRestaurant 0, sampleRestaurant 2] := by decide
  exact ⟨by rw [h.1, he], by rw [← he]; exact h.2.2⟩

/-- C4: a successful subdocument append answers 201, with the full updated
comment sequence for the comment kind but only the created element for the
grade kind. -/
theorem append_success_response_shapes (store : Store) (newId id : Nat) (r : Restaurant)
    (cb : CommentBody) (gb : GradeBody)
    (hc : truthy cb.comment = true) (hd : truthy cb.date = true)
    (hs : gb.score ≠ none) (hgd : truthy gb.date = true)
    (hr : findById store id = some r) :
    (addComment store newId id cb).1 =
      { status := 201
        body := Body.commentList (r.comments ++
          [{ _id := newId, date := cb.date.getD "", comment := cb.comment.getD "" }]) }
    ∧ (addGrade store newId id gb).1 =
      { status := 201
        body := Body.gradeDoc
          { _id := newId, date := gb.date.getD "", score := gb.score.getD 0 } } := by
  obtain ⟨s, hsome⟩ := Option.ne_none_iff_exists'.mp hs
  exact ⟨by simp [addComment, hc, hd, hr], by simp [addGrade, hsome, hgd, hr]⟩

/-- Witness for C4: appending to restaurant 0 of the fixture store answers
201 with the one-element comment list for the comment kind and with just the
created grade for the grade kind. -/
theorem append_success_response_shapes_witness :
    (addComment sampleStore 7 0 { comment := some "Rico", date := some "2024-01-01" }).1 =
      { status := 201
        body := Body.commentList [{ _id := 7, date := "2024-01-01", comment := "Rico" }] }
    ∧ (addGrade sampleStore 7 0 { score := some 0, date := some "2024-01-01" }).1 =
      { status := 201
        body := Body.gradeDoc { _id := 7, date := "2024-01-01", score := 0 } } := by
  have h := append_success_response_shapes sampleStore 7 0 (sampleRestaurant 0)
    { comment := some "Rico", date := some "2024-01-01" }
    { score := some 0, date := some "2024-01-01" }
    (by decide) (by decide) (by decide) (by decide) (by decide)
  exact ⟨by rw [h.1]; decide, by rw [h.2]; decide⟩


theorem findById_saveReplace_of_found (store : Store) (id : Nat) (r r2 : Restaurant)
    (h : findById store id = some r) (hid : r2._id = id) :
    findById (saveReplace store r2) id = some r2 := by
  induction store with
  | nil => simp [findById] at h
  | cons a l ih =>
    by_cases ha : a._id = id
    · have hsr : saveReplace (a :: l) r2 = r2 :: saveReplace l r2 := by
        simp [saveReplace, ha, hid]
      rw [hsr, findById, List.find?]
      simp [hid]
    · have hne : (a._id == id) = false := by simp [ha]
      have hsr : saveReplace (a :: l) r2 = a :: saveReplace l r2 := by
        simp [saveReplace, ha, hid]
      rw [hsr, findById, List.find?]
      simp only [hne]
      have h' : findById l id = some r := by simpa [findById, List.find?, hne] using h
      exact ih h'

theorem updateFirst_append_notfound (p : α → Bool) (f : α → α) (l1 l2 : List α) (c : α)
    (h1 : ∀ a ∈ l1, p a = false) (hc : p c = true) :
    updateFirst p f (l1 ++ c :: l2) = l1 ++ f c :: l2 := by
  induction l1 with
  | nil => simp [updateFirst, hc]
  | cons x xs ih =>
    have hx : p x = false := h1 x (by simp)
    simp only [List.cons_append, updateFirst, hx]
    simp [ih (fun a ha => h1 a (by simp [ha]))]


/-- C7: round-trip over the comment sequence — appending a comment and then
updating it by its returned identifier makes the subsequent listing show
exactly the updated fields for that identifier; appending and then removing
it leaves the comment sequence without any element bearing that identifier. -/
theorem comment_roundtrip (store : Store) (id newId : Nat) (r : Restaurant)
    (cb cb2 : CommentBody)
    (hr : findById store id = some r)
    (hfresh : ∀ x ∈ r.comments, x._id ≠ newId)
    (hc : truthy cb.comment = true) (hd : truthy cb.date = true)
    (hc2 : truthy cb2.comment = true) (hd2 : truthy cb2.date = true) :
    (addComment store newId id cb).1 =
      { status := 201
        body := Body.commentList (r.comments ++
          [{ _id := newId, date := cb.date.getD "", comment := cb.comment.getD "" }]) }
    ∧ getAllCommentsById
        (updateCommentById (addComment store newId id cb).2 id newId cb2).2 id =
      { status := 200
        body := Body.commentList (r.comments ++
          [{ _id := newId, date := cb2.date.getD "", comment := cb2.comment.getD "" }]) }
    ∧ (∀ x ∈ r.comments ++
          [{ _id := newId, date := cb2.date.getD "", comment := cb2.comment.getD "" }],
        x._id = newId →
          x = { _id := newId, date := cb2.date.getD "", comment := cb2.comment.getD "" })
    ∧ getAllCommentsById (deleteCommentById (addComment store newId id cb).2 id newId).2 id =
      { status := 200, body := Body.commentList r.comments }
    ∧ (∀ x ∈ r.comments, x._id ≠ newId) := by
  have hrid : (r._id == id) = true := by
    have h0 := hr
    rw [findById] at h0
    simpa using List.find?_some h0
  have hadd : addComment store newId id cb =
      ({ status := 201
         body := Body.commentList (r.comments ++
           [{ _id := newId, date := cb.date.getD "", comment := cb.comment.getD "" }]) },
        saveReplace store { r with comments := r.comments ++
          [{ _id := newId, date := cb.date.getD "", comment := cb.comment.getD "" }] }) := by
    simp [addComment, hc, hd, hr]
  have hfound1 : findById (saveReplace store { r with comments := r.comments ++
        [{ _id := newId, date := cb.date.getD "", comment := cb.comment.getD "" }] }) id
      = some { r with comments := r.comments ++
        [{ _id := newId, date := cb.date.getD "", comment := cb.comment.getD "" }] } :=
    findById_saveReplace_of_found store id r _ hr (by simpa using hrid)
  have hnone : r.comments.find? (fun x => x._id == newId) = none :=
    List.find?_eq_none.mpr (fun x hx => by simp [hfresh x hx])
  have hfindc : (r.comments ++
        [({ _id := newId, date := cb.date.getD "", comment := cb.comment.getD "" } : Comment)]).find?
        (fun x => x._id == newId) =
      some { _id := newId, date := cb.date.getD "", comment := cb.comment.getD "" } := by
    rw [List.find?_append, hnone]
    simp [List.find?]
  have hupdFirst : updateFirst (fun x => x._id == newId)
      (fun x => { x with comment := cb2.comment.getD "", date := cb2.date.getD "" })
      (r.comments ++ [({ _id := newId, date := cb.date.getD "", comment := cb.comment.getD "" } : Comment)]) =
      r.comments ++ [{ _id := newId, date := cb2.date.getD "", comment := cb2.comment.getD "" }] := by
    rw [updateFirst_append_notfound _ _ _ _ _
      (fun a ha => by simp [hfresh a ha]) (by simp)]
  have hupd : updateCommentById (saveReplace store { r with comments := r.comments ++
        [{ _id := newId, date := cb.date.getD "", comment := cb.comment.getD "" }] }) id newId cb2 =
      ({ status := 200
         body := Body.commentDoc { _id := newId, date := cb2.date.getD "", comment := cb2.comment.getD "" } },
        saveReplace (saveReplace store { r with comments := r.comments ++
          [{ _id := newId, date := cb.date.getD "", comment := cb.comment.getD "" }] })
          { r with comments := r.comments ++
            [{ _id := newId, date := cb2.date.getD "", comment := cb2.comment.getD "" }] }) := by
    simp [updateCommentById, hc2, hd2, hfound1, hfindc, hupdFirst]
  have hfound2 : findById (saveReplace (saveReplace store { r with comments := r.comments ++
        [{ _id := newId, date := cb.date.getD "", comment := cb.comment.getD "" }] })
        { r with comments := r.comments ++
          [{ _id := newId, date := cb2.date.getD "", comment := cb2.comment.getD "" }] }) id =
      some { r with comments := r.comments ++
        [{ _id := newId, date := cb2.date.getD "", comment := cb2.comment.getD "" }] } :=
    findById_saveReplace_of_found _ id _ _ hfound1 (by simpa using hrid)
  have hfilter : (r.comments ++
        [({ _id := newId, date := cb.date.getD "", comment := cb.comment.getD "" } : Comment)]).filter
        (fun x => !(x._id == newId)) = r.comments := by
    rw [List.filter_append]
    have h1 : r.comments.filter (fun x => !(x._id == newId)) = r.comments :=
      List.filter_eq_self.mpr (fun x hx => by simp [hfresh x hx])
    simp [h1, List.filter]
  have hdel : deleteCommentById (saveReplace store { r with comments := r.comments ++
        [{ _id := newId, date := cb.date.getD "", comment := cb.comment.getD "" }] }) id newId =
      ({ status := 200, body := Body.msg ("Comentario eliminado con éxito") },
        saveReplace (saveReplace store { r with comments := r.comments ++
          [{ _id := newId, date := cb.date.getD "", comment := cb.comment.getD "" }] })
          { r with comments := r.comments }) := by
    simp [deleteCommentById, hfound1, hfindc, hfilter]
  have hfound3 : findById (saveReplace (saveReplace store { r with comments := r.comments ++
        [{ _id := newId, date := cb.date.getD "", comment := cb.comment.getD "" }] })
        { r with comments := r.comments }) id = some { r with comments := r.comments } :=
    findById_saveReplace_of_found _ id _ _ hfound1 (by simpa using hrid)
  refine ⟨by rw [hadd], ?_, ?_, ?_, hfresh⟩
  · rw [hadd]
    show getAllCommentsById (updateCommentById _ id newId cb2).2 id = _
    rw [hupd]
    simp [getAllCommentsById, hfound2]
  · intro x hx hxid
    rcases List.mem_append.mp hx with hmem | hmem
    · exact absurd hxid (hfresh x hmem)
    · simpa using hmem
  · rw [hadd]
    show getAllCommentsById (deleteCommentById _ id newId).2 id = _
    rw [hdel]
    simp [getAllCommentsById, hfound3]


/-- C8: a subdocument update on an existing parent overwrites only the found
element's mutable fields (identifier unchanged), keeps every other element of
the sequence and every other field of the parent, and answers 200 with the
updated element; when the element id is absent the operation answers 404 with
a message distinct from the parent-absent one and the store is untouched. -/
theorem updateSubdoc_frame (store : Store) (id cid gid : Nat)
    (cb : CommentBody) (gb : GradeBody) (r : Restaurant)
    (hc : truthy cb.comment = true) (hd : truthy cb.date = true)
    (hs : gb.score ≠ none) (hgd : truthy gb.date = true)
    (hr : findById store id = some r) :
    (∀ c, r.comments.find? (fun x => x._id == cid) = some c →
      c._id = cid ∧ ∃ l1 l2,
        r.comments = l1 ++ c :: l2
        ∧ updateCommentById store id cid cb =
          ({ status := 200
             body := Body.commentDoc
               { c with comment := cb.comment.getD "", date := cb.date.getD "" } },
            saveReplace store { r with comments :=
              l1 ++ { c with comment := cb.comment.getD "", date := cb.date.getD "" } :: l2 }))
    ∧ (r.comments.find? (fun x => x._id == cid) = none →
        updateCommentById store id cid cb =
          ({ status := 404, body := Body.msg ("Comentario no encontrado") }, store))
    ∧ (∀ g, r.grades.find? (fun x => x._id == gid) = some g →
      g._id = gid ∧ ∃ l1 l2,
        r.grades = l1 ++ g :: l2
        ∧ updateGradeById store id gid gb =
          ({ status := 200
             body := Body.gradeDoc
               { g with score := gb.score.getD 0, date := gb.date.getD "" } },
            saveReplace store { r with grades :=
              l1 ++ { g with score := gb.score.getD 0, date := gb.date.getD "" } :: l2 }))
    ∧ (r.grades.find? (fun x => x._id == gid) = none →
        updateGradeById store id gid gb =
          ({ status := 404, body := Body.msg ("Calificación no encontrada") }, store))
    ∧ ("Comentario no encontrado" ≠ "Restaurante no encontrado")
    ∧ ("Calificación no encontrada" ≠ "Restaurante no encontrado") := by
  obtain ⟨s, hsome⟩ := Option.ne_none_iff_exists'.mp hs
  refine ⟨?_, ?_, ?_, ?_, by decide, by decide⟩
  · intro c hfind
    obtain ⟨hpc, l1, l2, hsplit, hl1⟩ := List.find?_eq_some.mp hfind
    have hcid : c._id = cid := by simpa using hpc
    refine ⟨hcid, l1, l2, hsplit, ?_⟩
    have hupd : updateFirst (fun x => x._id == cid)
        (fun x => { x with comment := cb.comment.getD "", date := cb.date.getD "" })
        r.comments =
        l1 ++ { c with comment := cb.comment.getD "", date := cb.date.getD "" } :: l2 := by
      rw [hsplit]
      exact updateFirst_append_notfound _ _ _ _ _
        (fun a ha => by simpa using hl1 a ha) hpc
    simp [updateCommentById, hc, hd, hr, hfind, hupd]
  · intro hfind
    simp [updateCommentById, hc, hd, hr, hfind]
  · intro g hfind
    obtain ⟨hpg, l1, l2, hsplit, hl1⟩ := List.find?_eq_some.mp hfind
    have hgid : g._id = gid := by simpa using hpg
    refine ⟨hgid, l1, l2, hsplit, ?_⟩
    have hupd : updateFirst (fun x => x._id == gid)
        (fun x => { x with score := gb.score.getD 0, date := gb.date.getD "" })
        r.grades =
        l1 ++ { g with score := gb.score.getD 0, date := gb.date.getD "" } :: l2 := by
      rw [hsplit]
      exact updateFirst_append_notfound _ _ _ _ _
        (fun a ha => by simpa using hl1 a ha) hpg
    simp only [hsome, Option.getD_some] at hupd
    simp [updateGradeById, hsome, hgd, hr, hfind, hupd]
  · intro hfind
    simp [updateGradeById, hsome, hgd, hr, hfind]


/-- Witness for C7: on the fixture store, appending comment 7, updating it,
and listing shows the updated fields; appending then deleting leaves the
original two comments. -/
theorem comment_roundtrip_witness :
    (addComment commentedStore 7 0 { comment := some "Rico", date := some "2024-01-01" }).1 =
      { status := 201
        body := Body.commentList
          [{ _id := 1, date := "2023-01-01", comment := "Bueno" },
            { _id := 2, date := "2023-02-02", comment := "Regular" },
            { _id := 7, date := "2024-01-01", comment := "Rico" }] }
    ∧ getAllCommentsById
        (updateCommentById
          (addComment commentedStore 7 0 { comment := some "Rico", date := some "2024-01-01" }).2
          0 7 { comment := some "Mejor", date := some "2024-02-02" }).2 0 =
      { status := 200
        body := Body.commentList
          [{ _id := 1, date := "2023-01-01", comment := "Bueno" },
            { _id := 2, date := "2023-02-02", comment := "Regular" },
            { _id := 7, date := "2024-02-02", comment := "Mejor" }] }
    ∧ getAllCommentsById
        (deleteCommentById
          (addComment commentedStore 7 0 { comment := some "Rico", date := some "2024-01-01" }).2
          0 7).2 0 =
      { status := 200
        body := Body.commentList
          [{ _id := 1, date := "2023-01-01", comment := "Bueno" },
            { _id := 2, date := "2023-02-02", comment := "Regular" }] } := by
  have h := comment_roundtrip commentedStore 0 7 commentedRestaurant
    { comment := some "Rico", date := some "2024-01-01" }
    { comment := some "Mejor", date := some "2024-02-02" }
    (by decide) (by decide) (by decide) (by decide) (by decide) (by decide)
  refine ⟨?_, ?_, ?_⟩
  · rw [h.1]; decide
  · rw [h.2.1]; decide
  · rw [h.2.2.2.1]; decide

/-- Witness for C8: updating an absent comment id (99) or grade id (99) on
the fixture restaurant answers 404 with the element-specific message and the
store is unchanged. -/
theorem updateSubdoc_frame_witness :
    updateCommentById commentedStore 0 99 { comment := some "X", date := some "2024-05-05" } =
      ({ status := 404, body := Body.msg ("Comentario no encontrado") }, commentedStore)
    ∧ updateGradeById commentedStore 0 99 { score := some 0, date := some "2024-05-05" } =
      ({ status := 404, body := Body.msg ("Calificación no encontrada") }, commentedStore) := by
  have h := updateSubdoc_frame commentedStore 0 99 99
    { comment := some "X", date := some "2024-05-05" }
    { score := some 0, date := some "2024-05-05" } commentedRestaurant
    (by decide) (by decide) (by decide) (by decide) (by decide)
  exact ⟨h.2.1 (by decide), h.2.2.2.1 (by decide)⟩

/-- C2: with an origin supplied, the search endpoint returns exactly the
restaurants passing the conjunctive name/cuisine/borough filter, ordered by
the distance key to the origin ascending — any two returned restaurants
appear in non-decreasing distance order, so the nearer one comes first. -/
theorem search_sorted_by_proximity (dist : Origin → Restaurant → ℚ) (store : Store)
    (name cuisine borough : Option String) (o : Origin) :
    ∃ out : List Restaurant,
      searchAndSortRestaurants dist store name cuisine borough (some o) =
        { status := 200, body := Body.restaurantList out }
      ∧ (∀ r, r ∈ out ↔ (r ∈ store ∧ matchesFilters name cuisine borough r = true))
      ∧ (∀ i j (hi : i < out.length) (hj : j < out.length), i < j →
          dist o (out.get ⟨i, hi⟩) ≤ dist o (out.get ⟨j, hj⟩)) := by
  refine ⟨(store.filter (matchesFilters name cuisine borough)).mergeSort
    (fun a b => dist o a ≤ dist o b), rfl, ?_, ?_⟩
  · intro r
    rw [(List.mergeSort_perm _ _).mem_iff, List.mem_filter]
  · have htrans : ∀ a b c : Restaurant,
        (decide (dist o a ≤ dist o b)) = true → (decide (dist o b ≤ dist o c)) = true →
        (decide (dist o a ≤ dist o c)) = true := by
      intro a b c hab hbc
      simp at hab hbc ⊢
      exact le_trans hab hbc
    have htotal : ∀ a b : Restaurant,
        ((decide (dist o a ≤ dist o b)) || (decide (dist o b ≤ dist o a))) = true := by
      intro a b
      simpa using le_total (dist o a) (dist o b)
    have hp := @List.sorted_mergeSort Restaurant
      (fun a b => decide (dist o a ≤ dist o b)) htrans htotal
      (store.filter (matchesFilters name cuisine borough))
    rw [List.pairwise_iff_getElem] at hp
    intro i j hi hj hij
    have := hp i j hi hj hij
    simpa using this

unseal List.merge List.mergeSort in
theorem searchFixture_eval :
    searchAndSortRestaurants coordKey [farR, nearR] none none none (some origin0) =
      { status := 200, body := Body.restaurantList [nearR, farR] } := rfl

/-- Witness for C2: on a two-restaurant store, the search with an origin
returns the nearer restaurant first, and its distance key is indeed the
smaller one. -/
theorem search_sorted_by_proximity_witness :
    searchAndSortRestaurants coordKey [farR, nearR] none none none (some origin0) =
      { status := 200, body := Body.restaurantList [nearR, farR] }
    ∧ coordKey origin0 nearR ≤ coordKey origin0 farR := by
  obtain ⟨out, heq, hmem, hsort⟩ :=
    search_sorted_by_proximity coordKey [farR, nearR] none none none origin0
  have hval := searchFixture_eval
  rw [heq] at hval
  have hb := congrArg Response.body hval
  simp only [Body.restaurantList.injEq] at hb
  subst hb
  refine ⟨heq, ?_⟩
  have h01 := hsort 0 1 (by decide) (by decide) (by decide)
  simpa using h01

end RestaurantApi
